import Mathlib

/-!
Verification of `src/nfde/docker_command.rs` (the nfde docker archive manager).

The embedding models the program state explicitly:
* the filesystem is an association list from absolute path strings to file
  contents (lists of bytes);
* the exit status of each spawned external process is an oracle `Bool`
  argument (`true` = clean exit, mirroring `ExitStatus::success()`);
* the skim fuzzy-selection widget is an oracle `SkimOutput` value
  (abort flag plus the list of selected items);
* a Rust panic (`unwrap` / `expect` on a failing value) is the `panicked`
  constructor of the result type, distinct from an `anyhow` error.
-/

namespace Nfde

/-- Configuration supplied by the external config provider (`lib::config::Config`):
`image_folder` is the archive directory and `api_image_name` is the image
identifier passed to `docker save`. -/
structure Config where
  image_folder : String
  api_image_name : String
deriving Repr, DecidableEq

/-- The filesystem: an association list from absolute paths to file contents. -/
abbrev FS := List (String × List Nat)

/-- Embeds Rust `str::ends_with`: `suffix` is a suffix of `s`. -/
def ends_with (s suffix : String) : Bool :=
  List.isSuffixOf suffix.data s.data

/-- Embeds `Path::join` for a relative file name: directory, separator, file. -/
def joinPath (dir file : String) : String :=
  dir ++ "/" ++ file

/-- First association-list entry for path `p`, the contents `fs::read` returns. -/
def lookupFS : FS → String → Option (List Nat)
  | [], _ => none
  | (q, d) :: rest, p => if q = p then some d else lookupFS rest p

/-- Embeds `Path::exists` over the modelled filesystem. -/
def existsFile (fs : FS) (p : String) : Bool :=
  (lookupFS fs p).isSome

/-- Models the external `rm` binary: when it exits cleanly the path has been
deleted from the filesystem. -/
def removeFile : FS → String → FS
  | [], _ => []
  | (q, d) :: rest, p => if q = p then removeFile rest p else (q, d) :: removeFile rest p

/-- Outcome of running a piece of the program: an `anyhow::Result` value
(`ok` / `err msg`) or a Rust panic. -/
inductive RunResult (α : Type) where
  | ok (a : α)
  | err (msg : String)
  | panicked
deriving Repr, DecidableEq

/-- Output of the skim widget (`SkimOutput`): the abort flag and the list of
selected items, as strings. -/
structure SkimOutput where
  is_abort : Bool
  selected_items : List String
deriving Repr, DecidableEq

/-- The `.multi(true)` flag set in `SkimOptionsBuilder` by `select_image`. -/
def skim_multi : Bool := true

/-- The candidate list `select_image` feeds the widget: directory entries
filtered to file names ending in `".tar"`. -/
def candidate_items (entries : List String) : List String :=
  entries.filter (fun f => ends_with f ".tar")

/-- Embeds `select_image`'s handling of the widget output: on abort it fails
with "Image selection aborted"; otherwise it takes the first selected item
with `selected_items.get(0).unwrap()`, which panics when nothing was
selected. -/
def select_image (out : SkimOutput) : RunResult String :=
  if out.is_abort then .err "Image selection aborted"
  else
    match out.selected_items.head? with
    | some item => .ok item
    | none => .panicked

/-- The two validation checks at the end of `determine_image_path`: the path
must exist, then its string form must end in `".tar"`. -/
def validate_image_path (fs : FS) (image_path : String) : RunResult String :=
  if !(existsFile fs image_path) then .err ("File does not exist: " ++ image_path)
  else if !(ends_with image_path ".tar") then .err ("File is not a tar file: " ++ image_path)
  else .ok image_path

/-- Embeds `determine_image_path`: with a name, the candidate is
`image_folder/<name>.tar`; without one, interactive selection supplies the
file name (joined unchanged); the candidate is then validated. -/
def determine_image_path (cfg : Config) (fs : FS) (name : Option String)
    (out : SkimOutput) : RunResult String :=
  match name with
  | some n => validate_image_path fs (joinPath cfg.image_folder (n ++ ".tar"))
  | none =>
    match select_image out with
    | .ok file => validate_image_path fs (joinPath cfg.image_folder file)
    | .err e => .err e
    | .panicked => .panicked

/-- Embeds `save`. The filesystem argument witnesses that Save consults the
filesystem nowhere; `exitOk` is the `docker save` exit status. Returns the
outcome together with the argument list of the spawned process (`none` when
no process is started). -/
def save (cfg : Config) (_fs : FS) (name : Option String) (exitOk : Bool) :
    RunResult Unit × Option (List String) :=
  match name with
  | some n =>
    let image_path := joinPath cfg.image_folder (n ++ ".tar")
    ((if exitOk then .ok () else .err "Could not save docker image"),
     some ["save", "-o", image_path, cfg.api_image_name])
  | none => (.err "Please provide a name for the image", none)

/-- One interaction of `load` with the spawned `docker load` child process. -/
inductive LoadEvent where
  | write (bytes : List Nat)
  | flush
  | closeStdin
  | wait
deriving Repr, DecidableEq

/-- The bytes sent to the child's stdin over a trace, in order. -/
def bytesWritten (trace : List LoadEvent) : List Nat :=
  trace.foldr (fun e acc => match e with | .write bs => bs ++ acc | _ => acc) []

/-- Embeds `load`: resolve the path, read the whole file (`expect` panics if
the read fails), spawn `docker load` with piped stdin, `write_all` the full
buffer, `flush`, drop the handle (closing the stream), then `wait`. Returns
the outcome and the ordered trace of interactions with the child process. -/
def load (cfg : Config) (fs : FS) (name : Option String) (out : SkimOutput)
    (exitOk : Bool) : RunResult Unit × List LoadEvent :=
  match determine_image_path cfg fs name out with
  | .err e => (.err e, [])
  | .panicked => (.panicked, [])
  | .ok image_path =>
    match lookupFS fs image_path with
    | none => (.panicked, [])
    | some image_data =>
      ((if exitOk then .ok () else .err "Could not load docker image"),
       [LoadEvent.write image_data, .flush, .closeStdin, .wait])

/-- Embeds `remove`: resolve the path, spawn `rm` on it, report the outcome.
Returns the outcome, the resulting filesystem, and the argument lists of the
processes spawned. -/
def remove (cfg : Config) (fs : FS) (name : Option String) (out : SkimOutput)
    (exitOk : Bool) : RunResult Unit × FS × List (List String) :=
  match determine_image_path cfg fs name out with
  | .err e => (.err e, fs, [])
  | .panicked => (.panicked, fs, [])
  | .ok image_path =>
    ((if exitOk then .ok () else .err "Could not remove docker image"),
     (if exitOk then removeFile fs image_path else fs),
     [["rm", image_path]])

/-! ### Helper lemmas -/

/-- A path joined from a name with `".tar"` appended always ends in `".tar"`. -/
theorem ends_with_join_tar (dir s : String) :
    ends_with (joinPath dir (s ++ ".tar")) ".tar" = true := by
  rw [joinPath, ends_with, List.isSuffixOf_iff_suffix]
  simp only [String.data_append]
  exact (List.suffix_append _ _).trans (List.suffix_append _ _)

/-- An existing path has contents in the filesystem. -/
theorem lookupFS_isSome_of_existsFile {fs : FS} {p : String}
    (h : existsFile fs p = true) : ∃ d, lookupFS fs p = some d := by
  rw [existsFile, Option.isSome_iff_exists] at h
  exact h

/-- Deleting a path removes it from the filesystem. -/
theorem lookupFS_removeFile (fs : FS) (p : String) :
    lookupFS (removeFile fs p) p = none := by
  induction fs with
  | nil => rfl
  | cons e rest ih =>
    obtain ⟨q, d⟩ := e
    by_cases hq : q = p
    · simpa [removeFile, hq] using ih
    · simpa [removeFile, lookupFS, hq] using ih

/-- A validated path exists and ends in `".tar"`, and is returned unchanged. -/
theorem validate_image_path_ok {fs : FS} {p q : String}
    (h : validate_image_path fs p = .ok q) :
    existsFile fs p = true ∧ ends_with p ".tar" = true ∧ q = p := by
  by_cases h1 : existsFile fs p = true
  · by_cases h2 : ends_with p ".tar" = true
    · refine ⟨h1, h2, ?_⟩
      simp [validate_image_path, h1, h2] at h
      exact h.symm
    · simp [validate_image_path, h1, Bool.eq_false_iff.mpr h2] at h
  · simp [validate_image_path, Bool.eq_false_iff.mpr h1] at h

/-- A successfully resolved path exists and ends in `".tar"`. -/
theorem determine_image_path_ok {cfg : Config} {fs : FS} {name : Option String}
    {out : SkimOutput} {p : String}
    (h : determine_image_path cfg fs name out = .ok p) :
    existsFile fs p = true ∧ ends_with p ".tar" = true := by
  cases name with
  | some n =>
    obtain ⟨h1, h2, hq⟩ := validate_image_path_ok h
    subst hq
    exact ⟨h1, h2⟩
  | none =>
    unfold determine_image_path at h
    cases hsel : select_image out with
    | ok file =>
      rw [hsel] at h
      obtain ⟨h1, h2, hq⟩ := validate_image_path_ok h
      subst hq
      exact ⟨h1, h2⟩
    | err e => rw [hsel] at h; exact absurd h (by simp)
    | panicked => rw [hsel] at h; exact absurd h (by simp)

/-! ### Concrete fixtures used by the witness theorems -/

def cfgW : Config := ⟨"/images", "api-image"⟩

def fsW : FS := [("/images/x.tar", [1, 2, 3])]

def outW : SkimOutput := ⟨false, []⟩

/-! ### Claim theorems -/

/-- C1: whenever Load resolves an archive file, its entire contents are
written byte-for-byte and in order to the spawned subprocess's stdin, the
stream is then flushed and closed, and only afterwards does `load` wait for
the subprocess to terminate: the interaction trace is exactly
write-all, flush, close, wait. -/
theorem load_writes_all_then_closes_then_waits (cfg : Config) (fs : FS)
    (name : Option String) (out : SkimOutput) (exitOk : Bool) (p : String)
    (data : List Nat)
    (hres : determine_image_path cfg fs name out = .ok p)
    (hdata : lookupFS fs p = some data) :
    (load cfg fs name out exitOk).2 =
      [LoadEvent.write data, .flush, .closeStdin, .wait]
    ∧ bytesWritten (load cfg fs name out exitOk).2 = data := by
  simp [load, hres, hdata, bytesWritten]

/-- C1 witness: a concrete archive `/images/x.tar` with bytes `[1, 2, 3]`. -/
theorem load_writes_all_then_closes_then_waits_witness :
    (load cfgW fsW (some "x") outW true).2 =
      [LoadEvent.write [1, 2, 3], .flush, .closeStdin, .wait]
    ∧ bytesWritten (load cfgW fsW (some "x") outW true).2 = [1, 2, 3] :=
  load_writes_all_then_closes_then_waits cfgW fsW (some "x") outW true
    "/images/x.tar" [1, 2, 3] (by decide) (by decide)

/-- C2: for every name `n`, Save's destination path is exactly the archive
directory joined with `n ++ ".tar"`, and Save's behaviour is identical on any
two filesystems: no existence or extension check is performed on the
destination. -/
theorem save_destination_is_join_name_tar (cfg : Config) (fs fs' : FS)
    (n : String) (exitOk : Bool) :
    (save cfg fs (some n) exitOk).2 =
      some ["save", "-o", joinPath cfg.image_folder (n ++ ".tar"), cfg.api_image_name]
    ∧ save cfg fs (some n) exitOk = save cfg fs' (some n) exitOk :=
  ⟨rfl, rfl⟩

/-- C6: Save with no name fails immediately with
"Please provide a name for the image": no external process is started
(`none` invocation), and `save` never consults the selection widget (its
definition takes no `SkimOutput`). -/
theorem save_without_name_fails (cfg : Config) (fs : FS) (exitOk : Bool) :
    save cfg fs none exitOk = (.err "Please provide a name for the image", none) :=
  rfl

/-- C7: when the selection widget reports abort, resolution fails with the
"Image selection aborted" error; Remove leaves the filesystem unchanged and
spawns no process, and Load spawns nothing either. -/
theorem selection_abort_fails_resolution (cfg : Config) (fs : FS)
    (items : List String) (exitOk : Bool) :
    determine_image_path cfg fs none ⟨true, items⟩ = .err "Image selection aborted"
    ∧ remove cfg fs none ⟨true, items⟩ exitOk = (.err "Image selection aborted", fs, [])
    ∧ load cfg fs none ⟨true, items⟩ exitOk = (.err "Image selection aborted", []) := by
  refine ⟨rfl, ?_, ?_⟩ <;> simp [remove, load, determine_image_path, select_image]

/-- C10: multi-selection is enabled (`.multi(true)`), yet the resolver uses
only the first selected item — its result is independent of the remaining
selection — and a non-aborted empty selection panics (`get(0).unwrap()` on an
empty list) instead of returning an error. -/
theorem selection_uses_first_item_or_panics :
    skim_multi = true
    ∧ (∀ item rest, select_image ⟨false, item :: rest⟩ = .ok item)
    ∧ select_image ⟨false, []⟩ = .panicked
    ∧ (∀ (cfg : Config) (fs : FS) (item : String) (rest rest' : List String),
        determine_image_path cfg fs none ⟨false, item :: rest⟩ =
          determine_image_path cfg fs none ⟨false, item :: rest'⟩)
    ∧ (∀ (cfg : Config) (fs : FS),
        determine_image_path cfg fs none ⟨false, []⟩ = .panicked) := by
  refine ⟨rfl, fun item rest => rfl, rfl, fun cfg fs item rest rest' => rfl,
    fun cfg fs => rfl⟩

/-- C3: a successfully resolved path for Load or Remove exists on disk and
ends in `".tar"`; and when the candidate path (from a name or from a
selection) does not exist, resolution fails with "File does not exist: "
followed by that exact path. -/
theorem resolution_exists_tar_or_not_found :
    (∀ (cfg : Config) (fs : FS) (name : Option String) (out : SkimOutput) (p : String),
      determine_image_path cfg fs name out = .ok p →
      existsFile fs p = true ∧ ends_with p ".tar" = true)
    ∧ (∀ (cfg : Config) (fs : FS) (n : String) (out : SkimOutput),
        existsFile fs (joinPath cfg.image_folder (n ++ ".tar")) = false →
        determine_image_path cfg fs (some n) out =
          .err ("File does not exist: " ++ joinPath cfg.image_folder (n ++ ".tar")))
    ∧ (∀ (cfg : Config) (fs : FS) (item : String) (rest : List String),
        existsFile fs (joinPath cfg.image_folder item) = false →
        determine_image_path cfg fs none ⟨false, item :: rest⟩ =
          .err ("File does not exist: " ++ joinPath cfg.image_folder item)) := by
  refine ⟨fun cfg fs name out p h => determine_image_path_ok h, ?_, ?_⟩
  · intro cfg fs n out h
    simp [determine_image_path, validate_image_path, h]
  · intro cfg fs item rest h
    simp [determine_image_path, select_image, validate_image_path, h]

/-- C3 witness: `x.tar` resolves to an existing `.tar` path; missing `y.tar`
and a selected but missing `z.tar` each fail naming the exact path. -/
theorem resolution_exists_tar_or_not_found_witness :
    (existsFile fsW "/images/x.tar" = true ∧ ends_with "/images/x.tar" ".tar" = true)
    ∧ determine_image_path cfgW [] (some "y") outW =
        .err "File does not exist: /images/y.tar"
    ∧ determine_image_path cfgW [] none ⟨false, ["z.tar"]⟩ =
        .err "File does not exist: /images/z.tar" :=
  ⟨resolution_exists_tar_or_not_found.1 cfgW fsW (some "x") outW "/images/x.tar"
      (by decide),
   resolution_exists_tar_or_not_found.2.1 cfgW [] "y" outW (by decide),
   resolution_exists_tar_or_not_found.2.2 cfgW [] "z.tar" [] (by decide)⟩

/-- C4: resolution of an existing file lacking the `".tar"` suffix fails
with "File is not a tar file: " followed by the path. Such a candidate is
reachable only through interactive selection: an explicit name always gets
`".tar"` appended. -/
theorem resolution_rejects_non_tar (cfg : Config) (fs : FS) (item : String)
    (rest : List String)
    (hex : existsFile fs (joinPath cfg.image_folder item) = true)
    (ht : ends_with (joinPath cfg.image_folder item) ".tar" = false) :
    determine_image_path cfg fs none ⟨false, item :: rest⟩ =
      .err ("File is not a tar file: " ++ joinPath cfg.image_folder item) := by
  simp [determine_image_path, select_image, validate_image_path, hex, ht]

/-- C4 witness: selecting the existing `foo.txt` fails with the
InvalidExtension message. -/
theorem resolution_rejects_non_tar_witness :
    determine_image_path cfgW [("/images/foo.txt", [7])] none ⟨false, ["foo.txt"]⟩ =
      .err "File is not a tar file: /images/foo.txt" :=
  resolution_rejects_non_tar cfgW [("/images/foo.txt", [7])] "foo.txt" []
    (by decide) (by decide)

/-- C5: after validation succeeds, each operation reports success exactly
when its external process exits cleanly, and otherwise the fixed
operation-specific failure message; Remove spawns exactly one `rm`
invocation (no retry). -/
theorem outcome_iff_clean_exit :
    (∀ (cfg : Config) (fs : FS) (n : String) (exitOk : Bool),
      (save cfg fs (some n) exitOk).1 =
        (if exitOk then .ok () else .err "Could not save docker image"))
    ∧ (∀ (cfg : Config) (fs : FS) (name : Option String) (out : SkimOutput)
        (exitOk : Bool) (p : String),
        determine_image_path cfg fs name out = .ok p →
        (load cfg fs name out exitOk).1 =
          (if exitOk then .ok () else .err "Could not load docker image"))
    ∧ (∀ (cfg : Config) (fs : FS) (name : Option String) (out : SkimOutput)
        (exitOk : Bool) (p : String),
        determine_image_path cfg fs name out = .ok p →
        (remove cfg fs name out exitOk).1 =
          (if exitOk then .ok () else .err "Could not remove docker image")
        ∧ (remove cfg fs name out exitOk).2.2 = [["rm", p]]) := by
  refine ⟨fun cfg fs n exitOk => rfl, ?_, ?_⟩
  · intro cfg fs name out exitOk p h
    obtain ⟨hex, -⟩ := determine_image_path_ok h
    obtain ⟨d, hd⟩ := lookupFS_isSome_of_existsFile hex
    simp [load, h, hd]
  · intro cfg fs name out exitOk p h
    simp [remove, h]

/-- C5 witness: concrete failing save and load, and a clean remove with its
single `rm` invocation. -/
theorem outcome_iff_clean_exit_witness :
    (save cfgW fsW (some "x") false).1 = .err "Could not save docker image"
    ∧ (load cfgW fsW (some "x") outW false).1 = .err "Could not load docker image"
    ∧ ((remove cfgW fsW (some "x") outW true).1 = .ok ()
        ∧ (remove cfgW fsW (some "x") outW true).2.2 = [["rm", "/images/x.tar"]]) :=
  ⟨outcome_iff_clean_exit.1 cfgW fsW "x" false,
   outcome_iff_clean_exit.2.1 cfgW fsW (some "x") outW false "/images/x.tar"
     (by decide),
   outcome_iff_clean_exit.2.2 cfgW fsW (some "x") outW true "/images/x.tar"
     (by decide)⟩

/-- C8: a successful Remove of the existing `x.tar` deletes it via one `rm`
invocation, and a second resolution of `x` (for Load or Remove) fails with
"File does not exist" at the resolution step: the second Remove spawns no
process at all. -/
theorem remove_then_reresolve_not_found (cfg : Config) (fs : FS) (x : String)
    (out out' : SkimOutput) (exitOk' : Bool)
    (hex : existsFile fs (joinPath cfg.image_folder (x ++ ".tar")) = true) :
    remove cfg fs (some x) out true =
      (.ok (), removeFile fs (joinPath cfg.image_folder (x ++ ".tar")),
       [["rm", joinPath cfg.image_folder (x ++ ".tar")]])
    ∧ determine_image_path cfg
        (removeFile fs (joinPath cfg.image_folder (x ++ ".tar"))) (some x) out' =
        .err ("File does not exist: " ++ joinPath cfg.image_folder (x ++ ".tar"))
    ∧ remove cfg (removeFile fs (joinPath cfg.image_folder (x ++ ".tar")))
        (some x) out' exitOk' =
        (.err ("File does not exist: " ++ joinPath cfg.image_folder (x ++ ".tar")),
         removeFile fs (joinPath cfg.image_folder (x ++ ".tar")), []) := by
  have hnotex : existsFile (removeFile fs (joinPath cfg.image_folder (x ++ ".tar")))
      (joinPath cfg.image_folder (x ++ ".tar")) = false := by
    simp [existsFile, lookupFS_removeFile]
  refine ⟨?_, ?_, ?_⟩
  · simp [remove, determine_image_path, validate_image_path, hex, ends_with_join_tar]
  · simp [determine_image_path, validate_image_path, hnotex]
  · simp [remove, determine_image_path, validate_image_path, hnotex]

/-- C8 witness: removing the concrete `/images/x.tar` empties the
filesystem and the second attempt fails at resolution. -/
theorem remove_then_reresolve_not_found_witness :
    remove cfgW fsW (some "x") outW true =
      (.ok (), ([] : FS), [["rm", "/images/x.tar"]])
    ∧ determine_image_path cfgW ([] : FS) (some "x") outW =
        .err "File does not exist: /images/x.tar"
    ∧ remove cfgW ([] : FS) (some "x") outW true =
        (.err "File does not exist: /images/x.tar", ([] : FS), []) :=
  remove_then_reresolve_not_found cfgW fsW "x" outW outW true (by decide)

/-- C9: for every candidate path that neither exists nor ends in `".tar"`,
validation fails with the "File does not exist" error, not the
"File is not a tar file" error: the existence check runs first. -/
theorem existence_checked_before_extension :
    (∀ (fs : FS) (p : String), existsFile fs p = false →
      ends_with p ".tar" = false →
      validate_image_path fs p = .err ("File does not exist: " ++ p))
    ∧ (∀ (cfg : Config) (fs : FS) (item : String) (rest : List String),
        existsFile fs (joinPath cfg.image_folder item) = false →
        ends_with (joinPath cfg.image_folder item) ".tar" = false →
        determine_image_path cfg fs none ⟨false, item :: rest⟩ =
          .err ("File does not exist: " ++ joinPath cfg.image_folder item)) := by
  constructor
  · intro fs p h1 h2
    simp [validate_image_path, h1]
  · intro cfg fs item rest h1 h2
    simp [determine_image_path, select_image, validate_image_path, h1]

/-- C9 witness: the missing non-tar `/images/foo.txt` yields the
"File does not exist" error at both the validation and resolution level. -/
theorem existence_checked_before_extension_witness :
    validate_image_path [] "/images/foo.txt" =
      .err "File does not exist: /images/foo.txt"
    ∧ determine_image_path cfgW [] none ⟨false, ["foo.txt"]⟩ =
        .err "File does not exist: /images/foo.txt" :=
  ⟨existence_checked_before_extension.1 [] "/images/foo.txt" (by decide) (by decide),
   existence_checked_before_extension.2 cfgW [] "foo.txt" [] (by decide) (by decide)⟩

end Nfde
